import Mathlib

/-!
Shallow embedding of the R2 bucket client of the workers-rs crate
(src/worker/src/r2/mod.rs, src/worker/src/r2/builder.rs, with the raw
binding signatures of src/worker-sys/src/r2.rs).

The host binding (`R2Bucket`) is external JavaScript, so each `execute`
is modelled as a pure function of the builder state and of the value the
binding's promise resolves with.  A JS value resolved by the binding is
modelled by exactly the observations the Rust code makes of it: whether
the property "bodyUsed" is present (the `js_in` check), the value of the
`bodyUsed` getter after the cast to `R2ObjectBody`, and an opaque handle
for the raw `ReadableStream` behind the `body` getter.
-/

namespace WorkerR2

/-- Client-side error type (`worker::Error`), restricted to the variants the
R2 code constructs or forwards (`Error::BodyUsed`, `Error::JsError`). -/
inductive Error where
  | BodyUsed
  | JsError (msg : String)
  deriving DecidableEq

/-- An instant (`worker::Date`); the client only moves it around opaquely. -/
structure Date where
  ms : Nat
  deriving DecidableEq

/-- The `js_sys::Date` an R2Conditional field is converted into. -/
structure JsDate where
  ms : Nat
  deriving DecidableEq

/-- Conversion `From<Date> for js_sys::Date` (opaque, value-preserving). -/
def Date.toJs (d : Date) : JsDate :=
  { ms := d.ms }

/-- Observable shape, to this client, of a JS object the binding resolves a
promise with.  `hasBodyUsed` records whether the property "bodyUsed" is
present on the value (`JsString::from("bodyUsed").js_in(&res)`); `bodyUsed`
is what the `bodyUsed` getter returns once the value is cast (via
`unchecked_into`) to `R2ObjectBody`; `bodyStream` is an opaque handle for
the `ReadableStream` returned by the `body` getter. -/
structure EdgeR2Object where
  hasBodyUsed : Bool
  bodyUsed : Bool
  bodyStream : Nat
  deriving DecidableEq

/-- `ObjectInner` of src/worker/src/r2/mod.rs: either the value kept as a
plain `R2Object` (no body) or the same value cast to `R2ObjectBody`. -/
inductive ObjectInner where
  | NoBody (obj : EdgeR2Object)
  | Body (obj : EdgeR2Object)
  deriving DecidableEq

/-- `worker::r2::Object`: metadata of a stored object, with or without an
attached body handle. -/
structure Object where
  inner : ObjectInner
  deriving DecidableEq

/-- `worker::r2::ObjectBody`: a borrow of the `R2ObjectBody` handle. -/
structure ObjectBody where
  inner : EdgeR2Object
  deriving DecidableEq

/-- `worker::ByteStream`, holding the raw readable stream (opaque here). -/
structure ByteStream where
  inner : Nat
  deriving DecidableEq

/-- `Object::body`: `Some` only when the inner value is the `Body` variant. -/
def Object.body (o : Object) : Option ObjectBody :=
  match o.inner with
  | .NoBody _ => none
  | .Body body => some { inner := body }

/-- `ObjectBody::stream`: errors with `Error::BodyUsed` when the handle's
`bodyUsed` flag is set, otherwise wraps the raw stream of the `body`
getter into a `ByteStream`. -/
def ObjectBody.stream (b : ObjectBody) : Except Error ByteStream :=
  if b.inner.bodyUsed then
    .error .BodyUsed
  else
    .ok { inner := b.inner.bodyStream }

/-- Outcome of awaiting a binding promise (`JsFuture::from(p).await`): the
promise rejected (the `?` operator then propagates the error), resolved
with JS null, or resolved with an object. -/
inductive Resolution where
  | rejected (e : Error)
  | null
  | obj (res : EdgeR2Object)
  deriving DecidableEq

/-- `worker::r2::Range` (builder.rs): the four client-side range forms. -/
inductive Range where
  | OffsetWithLength (offset length : Nat)
  | OffsetWithOptionalLength (offset : Nat) (length : Option Nat)
  | OptionalOffsetWithLength (offset : Option Nat) (length : Nat)
  | Suffix (suffix : Nat)
  deriving DecidableEq

/-- `worker_sys::r2::R2Range`: the wire-level triple of optional u32s. -/
structure R2RangeSys where
  offset : Option Nat
  length : Option Nat
  suffix : Option Nat
  deriving DecidableEq

/-- `From<Range> for R2RangeSys` (builder.rs). -/
def Range.toSys : Range → R2RangeSys
  | .OffsetWithLength offset length =>
      { offset := some offset, length := some length, suffix := none }
  | .OffsetWithOptionalLength offset length =>
      { offset := some offset, length := length, suffix := none }
  | .OptionalOffsetWithLength offset length =>
      { offset := offset, length := some length, suffix := none }
  | .Suffix suffix =>
      { offset := none, length := none, suffix := some suffix }

/-- `TryFrom<R2RangeSys> for Range` (builder.rs): the four accepted
populated-field patterns, all others rejected with "invalid range". -/
def Range.tryFromSys (val : R2RangeSys) : Except Error Range :=
  match val.offset, val.length, val.suffix with
  | some offset, some length, none => .ok (.OffsetWithLength offset length)
  | some offset, none, none => .ok (.OffsetWithOptionalLength offset none)
  | none, some length, none => .ok (.OptionalOffsetWithLength none length)
  | none, none, some suffix => .ok (.Suffix suffix)
  | _, _, _ => .error (.JsError "invalid range")

/-- `worker::r2::R2Conditional` (builder.rs). -/
structure R2Conditional where
  etag_matches : Option String
  etag_does_not_match : Option String
  uploaded_before : Option Date
  uploaded_after : Option Date
  deriving DecidableEq

/-- `worker_sys::r2::R2Conditional`. -/
structure R2ConditionalSys where
  etag_matches : Option String
  etag_does_not_match : Option String
  uploaded_before : Option JsDate
  uploaded_after : Option JsDate
  deriving DecidableEq

/-- `From<R2Conditional> for R2ConditionalSys` (builder.rs). -/
def R2Conditional.toSys (val : R2Conditional) : R2ConditionalSys :=
  { etag_matches := val.etag_matches
    etag_does_not_match := val.etag_does_not_match
    uploaded_before := val.uploaded_before.map Date.toJs
    uploaded_after := val.uploaded_after.map Date.toJs }

/-- `worker_sys::r2::R2GetOptions` (field `only_f`, JS name "onlyIf"). -/
structure R2GetOptionsSys where
  only_f : Option R2ConditionalSys
  range : Option R2RangeSys
  deriving DecidableEq

/-- `worker::r2::GetOptionsBuilder` (the `edge_bucket` borrow is the host
handle and lives outside the embedding). -/
structure GetOptionsBuilder where
  key : String
  only_if : Option R2Conditional
  range : Option Range
  deriving DecidableEq

/-- `GetOptionsBuilder::only_if`: overwrites the conditional (last write
wins). -/
def GetOptionsBuilder.setOnlyIf (b : GetOptionsBuilder) (c : R2Conditional) :
    GetOptionsBuilder :=
  { b with only_if := some c }

/-- `GetOptionsBuilder::range`: overwrites the range (last write wins). -/
def GetOptionsBuilder.setRange (b : GetOptionsBuilder) (r : Range) :
    GetOptionsBuilder :=
  { b with range := some r }

/-- The options value `GetOptionsBuilder::execute` builds and sends to the
binding alongside the key. -/
def GetOptionsBuilder.optionsSys (b : GetOptionsBuilder) : R2GetOptionsSys :=
  { only_f := b.only_if.map R2Conditional.toSys
    range := b.range.map Range.toSys }

/-- `GetOptionsBuilder::execute` as a function of the value the binding
resolves the get promise with: null becomes `Ok(None)`; otherwise the value
is wrapped as `Body` exactly when the property "bodyUsed" is present on it,
else as `NoBody`. -/
def GetOptionsBuilder.execute (_b : GetOptionsBuilder) (r : Resolution) :
    Except Error (Option Object) :=
  match r with
  | .rejected e => .error e
  | .null => .ok none
  | .obj res =>
      .ok (some { inner := if res.hasBodyUsed then .Body res else .NoBody res })

/-- `worker::r2::R2Data` (mod.rs): the upload payload union.  A stream is a
finite sequence of fallible byte chunks; bytes are listed as naturals. -/
inductive R2Data where
  | Stream (chunks : List (Except Error (List Nat)))
  | Text (s : String)
  | Bytes (bytes : List Nat)
  | None

/-- `worker::r2::HttpMetadata` (builder.rs). -/
structure HttpMetadata where
  content_type : Option String
  content_language : Option String
  content_disposition : Option String
  content_encoding : Option String
  cache_control : Option String
  cache_expiry : Option Date
  deriving DecidableEq

/-- `worker_sys::r2::R2HttpMetadata`. -/
structure R2HttpMetadataSys where
  content_type : Option String
  content_language : Option String
  content_disposition : Option String
  content_encoding : Option String
  cache_control : Option String
  cache_expiry : Option JsDate
  deriving DecidableEq

/-- `From<HttpMetadata> for R2HttpMetadataSys` (builder.rs). -/
def HttpMetadata.toSys (val : HttpMetadata) : R2HttpMetadataSys :=
  { content_type := val.content_type
    content_language := val.content_language
    content_disposition := val.content_disposition
    content_encoding := val.content_encoding
    cache_control := val.cache_control
    cache_expiry := val.cache_expiry.map Date.toJs }

/-- `From<R2HttpMetadataSys> for HttpMetadata` (builder.rs). -/
def HttpMetadata.fromSys (val : R2HttpMetadataSys) : HttpMetadata :=
  { content_type := val.content_type
    content_language := val.content_language
    content_disposition := val.content_disposition
    content_encoding := val.content_encoding
    cache_control := val.cache_control
    cache_expiry := val.cache_expiry.map fun d => { ms := d.ms } }

/-- `worker::r2::PutOptionsBuilder` (the `edge_bucket` borrow is the host
handle and lives outside the embedding).  The custom metadata map is kept
as an association list; the Rust `HashMap` iteration order is unspecified
and no claim depends on it. -/
structure PutOptionsBuilder where
  key : String
  value : R2Data
  http_metadata : Option HttpMetadata
  custom_metadata : Option (List (String × String))
  md5 : Option (List Nat)

/-- `PutOptionsBuilder::http_metadata`. -/
def PutOptionsBuilder.setHttpMetadata (b : PutOptionsBuilder)
    (metadata : HttpMetadata) : PutOptionsBuilder :=
  { b with http_metadata := some metadata }

/-- `PutOptionsBuilder::custom_metdata` (the typo is the source's). -/
def PutOptionsBuilder.setCustomMetdata (b : PutOptionsBuilder)
    (metadata : List (String × String)) : PutOptionsBuilder :=
  { b with custom_metadata := some metadata }

/-- Result of a Rust call that may panic instead of returning. -/
inductive PanicOr (α : Type) where
  | panic (msg : String)
  | ret (a : α)

/-- `PutOptionsBuilder::md5`: the source stores the checksum into `self.md5`
and then immediately executes the `todo!()` macro, which panics with
"not yet implemented"; the builder is never returned to the caller. -/
def PutOptionsBuilder.setMd5 (b : PutOptionsBuilder) (bytes : List Nat) :
    PanicOr PutOptionsBuilder :=
  let _recorded := { b with md5 := some bytes }
  .panic "not yet implemented"

/-- `worker_sys::r2::R2PutOptions`.  The md5 `ArrayBuffer` is modelled by
its byte contents; the custom-metadata `JsValue` by its entries (`none` is
`JsValue::undefined()`). -/
structure R2PutOptionsSys where
  http_metadata : Option R2HttpMetadataSys
  custom_metadata : Option (List (String × String))
  md5 : Option (List Nat)
  deriving DecidableEq

/-- The options value `PutOptionsBuilder::execute` builds and sends to the
binding alongside the key and the payload. -/
def PutOptionsBuilder.optionsSys (b : PutOptionsBuilder) : R2PutOptionsSys :=
  { http_metadata := b.http_metadata.map HttpMetadata.toSys
    custom_metadata := b.custom_metadata
    md5 := b.md5 }

/-- Outcome of awaiting the put promise.  The put path performs no null
check (the binding contract resolves a put with an `R2Object`); a null here
would make the host-level `js_in` test throw outside this model, so only
rejection and object resolution are represented. -/
inductive PutResolution where
  | rejected (e : Error)
  | obj (res : EdgeR2Object)
  deriving DecidableEq

/-- `PutOptionsBuilder::execute` as a function of the value the binding
resolves the put promise with: the value is wrapped as `Body` exactly when
the property "bodyUsed" is present on it, else as `NoBody`. -/
def PutOptionsBuilder.execute (_b : PutOptionsBuilder) (r : PutResolution) :
    Except Error Object :=
  match r with
  | .rejected e => .error e
  | .obj res =>
      .ok { inner := if res.hasBodyUsed then .Body res else .NoBody res }

/-- `worker::r2::Include` (builder.rs). -/
inductive Include where
  | HttpMetadata
  | CustomMetadata
  deriving DecidableEq

/-- A JS value stored in the wire include array. -/
inductive JsVal where
  | undefined
  | str (s : String)
  deriving DecidableEq

/-- `js_sys::Array::new_with_length(n)`: a JS array of length n whose slots
are unset and read back as undefined. -/
def arrayNewWithLength (n : Nat) : List JsVal :=
  List.replicate n JsVal.undefined

/-- `js_sys::Array::push`: JS `Array.prototype.push` appends at the end
(index = current length). -/
def arrayPush (arr : List JsVal) (v : JsVal) : List JsVal :=
  arr ++ [v]

/-- The literal string `ListOptionsBuilder::execute` pushes for an
`Include` value. -/
def Include.asStr : Include → String
  | .HttpMetadata => "httpMetadata"
  | .CustomMetadata => "customMetadata"

/-- The include array built by `ListOptionsBuilder::execute`: an array
created with `Array::new_with_length(include.len())`, into which the
literal strings are then pushed in order. -/
def encodeInclude (inc : List Include) : List JsVal :=
  inc.foldl (fun arr i => arrayPush arr (JsVal.str i.asStr))
    (arrayNewWithLength inc.length)

/-- `worker::r2::ListOptionsBuilder` (the `edge_bucket` borrow is the host
handle and lives outside the embedding).  Field `pref` models the source
field named after the key-filtering option; `includes` models the source
field `include` (a Lean keyword). -/
structure ListOptionsBuilder where
  limit : Option Nat
  pref : Option String
  cursor : Option String
  delimiter : Option String
  includes : Option (List Include)
  deriving DecidableEq

/-- `ListOptionsBuilder::limit`: stores the supplied value. -/
def ListOptionsBuilder.setLimit (b : ListOptionsBuilder) (limit : Nat) :
    ListOptionsBuilder :=
  { b with limit := some limit }

/-- The key-filter setter of `ListOptionsBuilder`. -/
def ListOptionsBuilder.setPref (b : ListOptionsBuilder) (p : String) :
    ListOptionsBuilder :=
  { b with pref := some p }

/-- `ListOptionsBuilder::cursor`. -/
def ListOptionsBuilder.setCursor (b : ListOptionsBuilder) (c : String) :
    ListOptionsBuilder :=
  { b with cursor := some c }

/-- `ListOptionsBuilder::delimiter`. -/
def ListOptionsBuilder.setDelimiter (b : ListOptionsBuilder) (d : String) :
    ListOptionsBuilder :=
  { b with delimiter := some d }

/-- `ListOptionsBuilder::include`. -/
def ListOptionsBuilder.setIncludes (b : ListOptionsBuilder)
    (inc : List Include) : ListOptionsBuilder :=
  { b with includes := some inc }

/-- `worker_sys::r2::R2ListOptions`.  The include `JsValue` is either the
built array (`some`) or `JsValue::UNDEFINED` (`none`); `pref` models the
key-filter field. -/
structure R2ListOptionsSys where
  limit : Option Nat
  pref : Option String
  cursor : Option String
  delimiter : Option String
  includes : Option (List JsVal)
  deriving DecidableEq

/-- The options value `ListOptionsBuilder::execute` builds and sends to the
binding. -/
def ListOptionsBuilder.executeOptions (b : ListOptionsBuilder) :
    R2ListOptionsSys :=
  { limit := b.limit
    pref := b.pref
    cursor := b.cursor
    delimiter := b.delimiter
    includes := b.includes.map encodeInclude }

/-- `worker_sys::r2::R2Objects`: the raw listing result. -/
structure EdgeR2Objects where
  objects : List EdgeR2Object
  truncated : Bool
  cursor : Option String
  delimitedPrefixes : List String
  deriving DecidableEq

/-- `worker::r2::Objects`. -/
structure Objects where
  inner : EdgeR2Objects
  deriving DecidableEq

/-- `Objects::objects`: wraps every raw listing entry as a `NoBody`
object. -/
def Objects.objects (o : Objects) : List Object :=
  o.inner.objects.map fun raw => { inner := .NoBody raw }

/-- `Objects::truncated`. -/
def Objects.truncated (o : Objects) : Bool :=
  o.inner.truncated

/-- `Objects::cursor`. -/
def Objects.cursor (o : Objects) : Option String :=
  o.inner.cursor

/-- `Objects::delimited_prefixes`. -/
def Objects.delimited_prefixes (o : Objects) : List String :=
  o.inner.delimitedPrefixes

/-- Outcome of awaiting the list promise. -/
inductive ListResolution where
  | rejected (e : Error)
  | obj (res : EdgeR2Objects)
  deriving DecidableEq

/-- `ListOptionsBuilder::execute` as a function of the value the binding
resolves the list promise with. -/
def ListOptionsBuilder.execute (_b : ListOptionsBuilder) (r : ListResolution) :
    Except Error Objects :=
  match r with
  | .rejected e => .error e
  | .obj res => .ok { inner := res }

/-- `worker::r2::Bucket`: the host binding handle (opaque). -/
structure Bucket where
  inner : Nat
  deriving DecidableEq

/-- `Bucket::head` as a function of the value the binding resolves the head
promise with: null becomes `Ok(None)`; any object is wrapped as `NoBody`
unconditionally. -/
def Bucket.head (_bk : Bucket) (_key : String) (r : Resolution) :
    Except Error (Option Object) :=
  match r with
  | .rejected e => .error e
  | .null => .ok none
  | .obj res => .ok (some { inner := .NoBody res })

/-- `Bucket::get`: builds a fresh get builder. -/
def Bucket.get (_bk : Bucket) (key : String) : GetOptionsBuilder :=
  { key := key, only_if := none, range := none }

/-- `Bucket::put`: builds a fresh put builder with the mandatory payload. -/
def Bucket.put (_bk : Bucket) (key : String) (value : R2Data) :
    PutOptionsBuilder :=
  { key := key, value := value, http_metadata := none
    custom_metadata := none, md5 := none }

/-- `Bucket::delete` as a function of the awaited promise: any resolved
value is discarded and `Ok(())` returned. -/
def Bucket.delete (_bk : Bucket) (_key : String) (r : Resolution) :
    Except Error Unit :=
  match r with
  | .rejected e => .error e
  | _ => .ok ()

/-- `Bucket::list`: builds a fresh list builder with every option unset. -/
def Bucket.list (_bk : Bucket) : ListOptionsBuilder :=
  { limit := none, pref := none, cursor := none
    delimiter := none, includes := none }

/-! Concrete fixtures used by witnesses and counterexamples. -/

/-- A resolved value that carries a `bodyUsed` property, not yet read. -/
def resWithBody : EdgeR2Object :=
  { hasBodyUsed := true, bodyUsed := false, bodyStream := 0 }

/-- A resolved value with no `bodyUsed` property (metadata-only shape). -/
def resNoBody : EdgeR2Object :=
  { hasBodyUsed := false, bodyUsed := false, bodyStream := 0 }

/-- A concrete bucket handle. -/
def bucket0 : Bucket :=
  { inner := 0 }

/-- A concrete put builder (empty payload, no options). -/
def putBuilder0 : PutOptionsBuilder :=
  bucket0.put "k" R2Data.None

/-- A concrete conditional that cannot match any real etag. -/
def cond0 : R2Conditional :=
  { etag_matches := some "impossible-etag", etag_does_not_match := none
    uploaded_before := none, uploaded_after := none }

/-- A concrete get builder with a conditional supplied. -/
def getBuilder0 : GetOptionsBuilder :=
  (bucket0.get "k").setOnlyIf cond0

/-- A body handle whose `bodyUsed` flag is not yet set. -/
def freshBody0 : ObjectBody :=
  { inner := resWithBody }

/-- A body handle whose `bodyUsed` flag is already set. -/
def usedBody0 : ObjectBody :=
  { inner := { hasBodyUsed := true, bodyUsed := true, bodyStream := 0 } }

/-! Claim theorems. -/

/-- C1 counterexample: the claim says the Object returned by a successful
`PutOptionsBuilder::execute` has `body() = None` regardless of the shape of
the resolved value, but a resolved value that carries a `bodyUsed` property
is wrapped as the `Body` variant, whose `body()` is `Some`. -/
theorem put_execute_body_counterexample :
    PutOptionsBuilder.execute putBuilder0 (.obj resWithBody)
      = .ok { inner := .Body resWithBody } ∧
    Object.body { inner := .Body resWithBody } ≠ none := by
  exact ⟨rfl, by simp [Object.body]⟩

/-- C1 (amended): a successful `PutOptionsBuilder::execute` returns an
Object whose `body()` is `None` whenever the binding's resolved value lacks
a `bodyUsed` property, as the binding contract's put response does. -/
theorem put_execute_nobody_of_no_bodyUsed (b : PutOptionsBuilder)
    (res : EdgeR2Object) (h : res.hasBodyUsed = false) :
    b.execute (.obj res) = .ok { inner := .NoBody res } ∧
    Object.body { inner := .NoBody res } = none := by
  constructor
  · simp [PutOptionsBuilder.execute, h]
  · rfl

/-- C1 witness: the amended theorem applied to a concrete builder and a
concrete metadata-only resolved value. -/
theorem put_execute_nobody_witness :
    resNoBody.hasBodyUsed = false ∧
    (PutOptionsBuilder.execute putBuilder0 (.obj resNoBody)
        = .ok { inner := .NoBody resNoBody } ∧
      Object.body { inner := .NoBody resNoBody } = none) :=
  ⟨rfl, put_execute_nobody_of_no_bodyUsed putBuilder0 resNoBody rfl⟩

/-- C2: evaluation of `PutOptionsBuilder::md5` at the failing input — the
setter panics via `todo!()` instead of returning the builder with the
checksum recorded, so no put carrying an md5 option can ever execute. -/
theorem md5_setter_panics :
    PutOptionsBuilder.setMd5 putBuilder0 (List.replicate 16 0)
      = .panic "not yet implemented" :=
  rfl

/-- C3: `ObjectBody::stream` is one-shot — it succeeds when the underlying
handle's body-used flag is not yet set, and fails with the distinct
`Error::BodyUsed` whenever the flag is already set. -/
theorem objectBody_stream_oneshot (body : ObjectBody) :
    (body.inner.bodyUsed = false → (body.stream).isOk = true) ∧
    (body.inner.bodyUsed = true → body.stream = .error Error.BodyUsed) := by
  constructor <;> intro h <;>
    simp [ObjectBody.stream, h, Except.isOk, Except.toBool]

/-- C3 witness: the one-shot theorem at a fresh handle and at a consumed
handle. -/
theorem objectBody_stream_oneshot_witness :
    (ObjectBody.stream freshBody0).isOk = true ∧
    ObjectBody.stream usedBody0 = .error Error.BodyUsed :=
  ⟨(objectBody_stream_oneshot freshBody0).1 rfl,
   (objectBody_stream_oneshot usedBody0).2 rfl⟩

/-- C4: decoding a wire range triple into a client `Range` succeeds exactly
when the populated fields form one of the four canonical patterns
(offset+length, offset only, length only, suffix only); every other
combination is rejected with the invalid-range error. -/
theorem range_tryFrom_canonical_iff (v : R2RangeSys) :
    ((Range.tryFromSys v).isOk = true ↔
      (v.offset.isSome = true ∧ v.length.isSome = true ∧ v.suffix = none) ∨
      (v.offset.isSome = true ∧ v.length = none ∧ v.suffix = none) ∨
      (v.offset = none ∧ v.length.isSome = true ∧ v.suffix = none) ∨
      (v.offset = none ∧ v.length = none ∧ v.suffix.isSome = true)) ∧
    ((Range.tryFromSys v).isOk = false →
      Range.tryFromSys v = .error (Error.JsError "invalid range")) := by
  obtain ⟨o, l, s⟩ := v
  cases o <;> cases l <;> cases s <;>
    simp [Range.tryFromSys, Except.isOk, Except.toBool]

/-- C4 witness: the iff and the error shape at a concrete invalid triple
(length and suffix both set). -/
theorem range_tryFrom_canonical_witness :
    (Range.tryFromSys { offset := none, length := some 5, suffix := some 7 }).isOk
        = false ∧
    Range.tryFromSys { offset := none, length := some 5, suffix := some 7 }
        = .error (Error.JsError "invalid range") :=
  ⟨rfl,
   (range_tryFrom_canonical_iff
       { offset := none, length := some 5, suffix := some 7 }).2 rfl⟩

/-- C5: when a supplied Conditional fails — which the binding signals by
resolving with a non-null value lacking a `bodyUsed` property — the get
returns `Ok(Some(Object))` with `body() = None`; and the client classifies
the response as body-less exactly when the resolved value lacks the
`bodyUsed` property. -/
theorem get_conditional_failure_bodyless (b : GetOptionsBuilder)
    (c : R2Conditional) (res : EdgeR2Object)
    (hc : b.only_if = some c) (hres : res.hasBodyUsed = false) :
    b.execute (.obj res) = .ok (some { inner := .NoBody res }) ∧
    Object.body { inner := .NoBody res } = none ∧
    ∀ r : EdgeR2Object,
      (b.execute (.obj r)).map (Option.map Object.body) = .ok (some none) ↔
        r.hasBodyUsed = false := by
  refine ⟨by simp [GetOptionsBuilder.execute, hres], rfl, ?_⟩
  intro r
  cases hr : r.hasBodyUsed <;>
    simp [GetOptionsBuilder.execute, Object.body, hr, Except.map]

/-- C5 witness: the theorem at a concrete builder carrying a conditional
and a concrete body-less resolved value. -/
theorem get_conditional_failure_witness :
    (getBuilder0.only_if = some cond0 ∧ resNoBody.hasBodyUsed = false) ∧
    GetOptionsBuilder.execute getBuilder0 (.obj resNoBody)
        = .ok (some { inner := .NoBody resNoBody }) ∧
    Object.body { inner := .NoBody resNoBody } = none :=
  ⟨⟨rfl, rfl⟩,
   (get_conditional_failure_bodyless getBuilder0 cond0 resNoBody rfl rfl).1,
   (get_conditional_failure_bodyless getBuilder0 cond0 resNoBody rfl rfl).2.1⟩

/-- C6: a null resolution from the binding makes both `Bucket::head` and
`GetOptionsBuilder::execute` return `Ok(None)` — absence is an ordinary
`None`, never a typed failure. -/
theorem null_resolution_gives_none (bk : Bucket) (key : String)
    (b : GetOptionsBuilder) :
    bk.head key .null = .ok none ∧ b.execute .null = .ok none :=
  ⟨rfl, rfl⟩

/-- C7 counterexample: a limit of 1001, above the claimed hard ceiling of
1000, is forwarded verbatim in the wire options — neither clamped to 1000
nor rejected before the request is sent. -/
theorem limit_not_clamped_counterexample :
    ((bucket0.list.setLimit 1001).executeOptions).limit = some 1001 ∧
    ¬(1001 ≤ 1000) :=
  ⟨rfl, by decide⟩

/-- C7 (amended): `ListOptionsBuilder::limit` stores the supplied value
unchanged and `execute` forwards it verbatim to the binding, even above
1000; the client-side default is the omitted field (`None`), the 1000
default and ceiling being enforced by the binding. -/
theorem limit_forwarded_unchanged (bk : Bucket) (n : Nat) :
    ((bk.list.setLimit n).executeOptions).limit = some n ∧
    (bk.list.executeOptions).limit = none :=
  ⟨rfl, rfl⟩

/-- C8: every Object produced by `Bucket::head` and every element of
`Objects::objects()` is metadata-only — `body()` returns `None` — for every
possible resolved value and listing. -/
theorem head_and_list_metadata_only (bk : Bucket) (key : String)
    (res : EdgeR2Object) (listing : EdgeR2Objects) :
    bk.head key (.obj res) = .ok (some { inner := .NoBody res }) ∧
    Object.body { inner := .NoBody res } = none ∧
    (Objects.objects { inner := listing }).all
      (fun o => (Object.body o).isNone) = true := by
  refine ⟨rfl, rfl, ?_⟩
  simp [Objects.objects, Object.body, List.all_eq_true]

/-- C9: evaluation of the include-array construction at the failing input —
`Array::new_with_length(1)` pre-fills one undefined slot and `push`
appends, so the wire array for `[Include::CustomMetadata]` is
`[undefined, "customMetadata"]`, not the claimed `["customMetadata"]`. -/
theorem include_encoding_at_failing_input :
    encodeInclude [Include.CustomMetadata]
        = [JsVal.undefined, JsVal.str "customMetadata"] ∧
    encodeInclude [Include.CustomMetadata] ≠ [JsVal.str "customMetadata"] :=
  ⟨rfl, by decide⟩

/-- C10: for every client `Range`, encoding to the wire triple and decoding
back always succeeds (the invalid-range error is unreachable on encoded
values), and re-encoding the decoded Range reproduces the identical wire
triple. -/
theorem range_wire_roundtrip (r : Range) :
    (Range.tryFromSys r.toSys).isOk = true ∧
    (Range.tryFromSys r.toSys).map Range.toSys = .ok r.toSys := by
  cases r with
  | OffsetWithLength o l => exact ⟨rfl, rfl⟩
  | OffsetWithOptionalLength o l => cases l <;> exact ⟨rfl, rfl⟩
  | OptionalOffsetWithLength o l => cases o <;> exact ⟨rfl, rfl⟩
  | Suffix s => exact ⟨rfl, rfl⟩

end WorkerR2
